import Mathlib

/-!
Verification development for the OpenRouter pipe plugin
(`src/plugins/openrouter_model_selector.py`).

The Python module is shallowly embedded as executable Lean definitions:

* JSON values decoded by `json.loads` become the inductive `JVal`; Python
  dictionaries become association lists with unique keys, and Python `str()`
  of a value becomes `pyStr`.
* The body of `Pipe.stream_response`'s line loop becomes `iterLines`; the
  per-chunk handling (lines 204-243 of the source) becomes `processChunk`.
* The retry loops of `Pipe.stream_response` and `Pipe.get_completion` become
  `streamGo` and `getGo`, parameterised by the sequence of upstream outcomes
  (one per HTTP attempt the code makes).  `time.sleep` calls are recorded in
  a list of waited durations; Python exceptions that are not caught by the
  surrounding handlers are returned as `PyExn` values.
* Python strings are Lean `String`s; where character-level reasoning is
  needed (`Pipe._format_model_id`) the corresponding list of characters is
  used via `String.data`.

Python's dynamic operations are embedded with their error behaviour: the
membership test `k in v` (`pyContains`), string subscription `v[k]`
(`pySubscript`) and indexing `v[0]` (`pyIndex0`) return `Except PyExn`
values that raise `TypeError`/`KeyError`/`IndexError` exactly where CPython
does (membership on a non-iterable, subscription of a string or list by a
string, indexing a dictionary by an integer, and so on); an exception
raised while a streaming chunk is handled escapes the generator uncaught,
recorded in the `raised` field of the loop result, and ends the stream with
no flush.  Python `str()` of a value yielded to a text consumer is rendered
by `pyStr`.
-/

/-- A decoded JSON value, the result of `json.loads` on one frame or body. -/
inductive JVal
  | null
  | bool (b : Bool)
  | num (n : Int)
  | str (s : String)
  | arr (xs : List JVal)
  | obj (kvs : List (String × JVal))
deriving Repr

/-- First value bound to key `k` in a decoded JSON object (Python dictionaries
have unique keys, so the first match is the only one). -/
def findKey (kvs : List (String × JVal)) (k : String) : Option JVal :=
  match kvs.find? (fun p => p.1 == k) with
  | some p => some p.2
  | none => none

/-- Python's `k in v` followed by `v[k]` on a decoded value: a lookup that
succeeds only on objects containing the key. -/
def JVal.lookup? : JVal → String → Option JVal
  | JVal.obj kvs, k => findKey kvs k
  | _, _ => none

/-- Python truthiness of a decoded JSON value (`if value:`). -/
def JVal.truthy : JVal → Bool
  | JVal.null => false
  | JVal.bool b => b
  | JVal.num n => n != 0
  | JVal.str s => s != ""
  | JVal.arr xs => !xs.isEmpty
  | JVal.obj kvs => !kvs.isEmpty

/-- Truthiness of an optional value, with `none` standing for Python `None`. -/
def truthyOpt : Option JVal → Bool
  | none => false
  | some v => v.truthy

/-- A single-quote character, used by Python `repr`. -/
def squote : String := String.singleton (Char.ofNat 39)

mutual

/-- Python `repr()` of a decoded JSON value (string escaping omitted). -/
def pyRepr : JVal → String
  | JVal.null => "None"
  | JVal.bool b => cond b "True" "False"
  | JVal.num n => toString n
  | JVal.str s => squote ++ s ++ squote
  | JVal.arr xs => "[" ++ pyReprSeq xs ++ "]"
  | JVal.obj kvs => "\x7b" ++ pyReprKVs kvs ++ "\x7d"

/-- Comma-separated `repr`s of the elements of a list. -/
def pyReprSeq : List JVal → String
  | [] => ""
  | [x] => pyRepr x
  | x :: y :: xs => pyRepr x ++ ", " ++ pyReprSeq (y :: xs)

/-- Comma-separated `repr`s of the entries of a dictionary. -/
def pyReprKVs : List (String × JVal) → String
  | [] => ""
  | [(k, v)] => squote ++ k ++ squote ++ ": " ++ pyRepr v
  | (k, v) :: e :: xs => squote ++ k ++ squote ++ ": " ++ pyRepr v ++ ", " ++ pyReprKVs (e :: xs)

end

/-- Python `str()` of a decoded JSON value, as produced by f-string
interpolation or by handing the value to a text consumer. -/
def pyStr : JVal → String
  | JVal.str s => s
  | v => pyRepr v

/-- Whether `pat` is an initial segment of `s` (Python `s.startswith(pat)`,
on strings viewed as their character lists). -/
def leadsWith : List Char → List Char → Bool
  | [], _ => true
  | _ :: _, [] => false
  | a :: as, b :: bs => a == b && leadsWith as bs

/-- Python `s.startswith(pat)` on Lean strings. -/
def pyStartsWith (s pat : String) : Bool := leadsWith pat.data s.data

/-- Python `s[:n]` — the first `n` characters of `s`. -/
def pyTake (s : String) (n : Nat) : String := String.mk (s.data.take n)

/-- Whether `needle` occurs as a contiguous substring of `hay` (Python's
`needle in hay` on strings; the empty needle always occurs). -/
def hasSubstring (needle : List Char) : List Char → Bool
  | [] => leadsWith needle []
  | c :: rest => leadsWith needle (c :: rest) || hasSubstring needle rest

/-- A Python exception that escapes the modelled code uncaught.  `valueError`
is raised by `Pipe._get_headers` for a missing API key; `plainExn` is the
bare `Exception` re-raised by `Pipe._handle_response`; `unboundLocal` models
the `UnboundLocalError` raised when an `except` handler reads the local
`response` before any assignment to it; `typeError`, `keyError` and
`indexError` are the exceptions Python's membership tests, subscriptions and
indexing raise on values of the wrong shape. -/
inductive PyExn
  | valueError (msg : String)
  | plainExn (msg : String)
  | unboundLocal (var : String)
  | typeError (msg : String)
  | keyError (key : String)
  | indexError (msg : String)
deriving Repr, DecidableEq

/-- Python `str()` of an exception, as interpolated into error strings. -/
def PyExn.text : PyExn → String
  | valueError m => m
  | plainExn m => m
  | unboundLocal v => "local variable " ++ v ++ " referenced before assignment"
  | typeError m => m
  | keyError k => squote ++ k ++ squote
  | indexError m => m

/-- Python `k in v` on a decoded JSON value: key membership on a dictionary,
substring test on a string, element equality on a list, and a `TypeError`
on the non-iterable values. -/
def pyContains (v : JVal) (k : String) : Except PyExn Bool :=
  match v with
  | JVal.obj kvs => Except.ok ((findKey kvs k).isSome)
  | JVal.str s => Except.ok (hasSubstring k.data s.data)
  | JVal.arr xs =>
    Except.ok (xs.any (fun e => match e with | JVal.str s => s == k | _ => false))
  | _ => Except.error (PyExn.typeError "argument of membership test is not iterable")

/-- Python `v[k]` with a string key: dictionary lookup (`KeyError` when the
key is absent), and a `TypeError` on strings, lists and the other values. -/
def pySubscript (v : JVal) (k : String) : Except PyExn JVal :=
  match v with
  | JVal.obj kvs =>
    match findKey kvs k with
    | some x => Except.ok x
    | none => Except.error (PyExn.keyError k)
  | JVal.str _ => Except.error (PyExn.typeError "string indices must be integers")
  | JVal.arr _ => Except.error (PyExn.typeError "list indices must be integers")
  | _ => Except.error (PyExn.typeError "object is not subscriptable")

/-- Python `v[0]`: head of a list, first character of a string, `KeyError`
on a dictionary (decoded JSON objects have string keys only), and a
`TypeError` on the remaining values. -/
def pyIndex0 (v : JVal) : Except PyExn JVal :=
  match v with
  | JVal.arr (x :: _) => Except.ok x
  | JVal.arr [] => Except.error (PyExn.indexError "list index out of range")
  | JVal.str s =>
    match s.data with
    | c :: _ => Except.ok (JVal.str (String.singleton c))
    | [] => Except.error (PyExn.indexError "string index out of range")
  | JVal.obj _ => Except.error (PyExn.keyError "0")
  | _ => Except.error (PyExn.typeError "object is not subscriptable")

/-- The literal opening boundary marker yielded by the source. -/
def openTag : String := "<think>\n"

/-- The literal closing boundary marker yielded by the source. -/
def closeTag : String := "\n</think>\n\n"

/-- One decoded line of the SSE stream as seen by `response.iter_lines()`:
its text, plus the result of `json.loads` on `text[6:]` (`none` models a
`json.JSONDecodeError`; the field is only consulted for `data: ` lines). -/
structure WireLine where
  text : String
  json : Option JVal
deriving Repr

/-- One arm of the field extraction at lines 210-221 of the source:
`outer in choice and field in choice[outer]`, and on success
`choice[outer][field]`; a `False` membership test yields `none`, and any
`TypeError`/`KeyError` raised along the way escapes. -/
def extractFieldVia (choice : JVal) (outer field : String) : Except PyExn (Option JVal) :=
  match pyContains choice outer with
  | Except.error e => Except.error e
  | Except.ok false => Except.ok none
  | Except.ok true =>
    match pySubscript choice outer with
    | Except.error e => Except.error e
    | Except.ok d =>
      match pyContains d field with
      | Except.error e => Except.error e
      | Except.ok false => Except.ok none
      | Except.ok true =>
        match pySubscript d field with
        | Except.error e => Except.error e
        | Except.ok x => Except.ok (some x)

/-- Lines 210-221 of the source: extract a field of `choices[0]`, looking
first at `delta` and, when that test is `False` without raising, at
`message` (`if "delta" in choice and field in choice["delta"]: ...
elif "message" in choice and field in choice["message"]: ...`). -/
def extractFieldE (choice : JVal) (field : String) : Except PyExn (Option JVal) :=
  match extractFieldVia choice "delta" field with
  | Except.error e => Except.error e
  | Except.ok (some v) => Except.ok (some v)
  | Except.ok none => extractFieldVia choice "message" field

/-- Lines 223-241 of the source: the yields for one chunk's extracted
(reasoning, content) pair — no Python operation here can raise. -/
def handleFrags (st : Bool) (rt ct : Option JVal) : List String × Bool :=
  let p1 : List String × Bool :=
    if truthyOpt rt then
      ((if st then [] else [openTag]) ++ [pyStr (rt.getD JVal.null)], true)
    else ([], st)
  let p2 : List String × Bool :=
    if truthyOpt ct then
      ((if p1.2 then [closeTag] else []) ++ [pyStr (ct.getD JVal.null)], false)
    else ([], p1.2)
  (p1.1 ++ p2.1, p2.2)

/-- Lines 204-241 of the source: handle one successfully parsed chunk, given
the current `in_reasoning_state`; returns the yielded fragments and the new
state, or the exception the chunk handling raises.  The guard is
`if "choices" in chunk and chunk["choices"]:`, then `chunk["choices"][0]`,
then both field extractions (all before any yield); an exception raised
here is caught neither by the inner `except json.JSONDecodeError` nor by
the outer `except requests.RequestException`, so it escapes the generator. -/
def processChunk (st : Bool) (chunk : JVal) : Except PyExn (List String × Bool) :=
  match pyContains chunk "choices" with
  | Except.error e => Except.error e
  | Except.ok false => Except.ok ([], st)
  | Except.ok true =>
    match pySubscript chunk "choices" with
    | Except.error e => Except.error e
    | Except.ok choicesVal =>
      if !choicesVal.truthy then Except.ok ([], st)
      else
        match pyIndex0 choicesVal with
        | Except.error e => Except.error e
        | Except.ok choice =>
          match extractFieldE choice "reasoning" with
          | Except.error e => Except.error e
          | Except.ok rt =>
            match extractFieldE choice "content" with
            | Except.error e => Except.error e
            | Except.ok ct => Except.ok (handleFrags st rt ct)

/-- Result of running the `for line in response.iter_lines()` loop: the
yielded fragments, the final `in_reasoning_state`, whether the loop ended
via the `break` on `data: [DONE]`, and the exception escaping the generator
when a chunk's handling raised (in which case nothing after the crashing
line is processed). -/
structure IterOut where
  out : List String
  state : Bool
  done : Bool
  raised : Option PyExn
deriving Repr, DecidableEq

/-- Lines 190-243 of the source: the streaming line loop.  Empty lines,
lines without the `data: ` marker and lines whose payload fails to parse
are skipped; `data: [DONE]` yields a closing tag if a reasoning block is
open (without clearing the flag) and breaks out of the loop; a
`TypeError`/`KeyError` from a chunk's handling aborts the loop before that
chunk yields anything. -/
def iterLines (st : Bool) : List WireLine → IterOut
  | [] => ⟨[], st, false, none⟩
  | l :: rest =>
    if l.text = "" then iterLines st rest
    else if !(pyStartsWith l.text "data: ") then iterLines st rest
    else if l.text = "data: [DONE]" then
      ⟨if st then [closeTag] else [], st, true, none⟩
    else
      match l.json with
      | none => iterLines st rest
      | some chunk =>
        match processChunk st chunk with
        | Except.error e => ⟨[], st, false, some e⟩
        | Except.ok p =>
          let r := iterLines p.2 rest
          ⟨p.1 ++ r.out, r.state, r.done, r.raised⟩

/-- Lines 190-247 of the source: the fragments of one streaming attempt
whose HTTP exchange succeeds — the line loop followed by the end-of-stream
flush (`if in_reasoning_state: yield "\n</think>\n\n"`), which runs both
after loop exhaustion and after the `break` on `data: [DONE]`, but not when
an exception escaped the loop. -/
def okAttemptOut (st : Bool) (ls : List WireLine) : List String :=
  let r := iterLines st ls
  r.out ++ (if r.raised.isNone && r.state then [closeTag] else [])

/-- The message of `Pipe._get_headers`'s `ValueError` for a missing key. -/
def missingKeyMsg : String := "OPENROUTER_API_KEY is not set"

/-- The error fragment built by both retry loops on a request failure
(`f"Error: Request failed: {str(e)}"`). -/
def reqFailText (msg : String) : String := "Error: Request failed: " ++ msg

/-- Outcome of one streaming HTTP attempt, supplied by the environment:
`ok lines` — `requests.post` and `raise_for_status` succeeded and the
response delivered `lines` in full; `httpFail processed status msg` — a
`requests.RequestException` was raised after a response with HTTP status
`status` was bound and after `processed` lines had been handled (so
`processed = []` models `raise_for_status` failing); `postExn msg` —
`requests.post` itself raised a `RequestException`, leaving `response`
unbound for this attempt. -/
inductive AttemptOutcome
  | ok (lines : List WireLine)
  | httpFail (processed : List WireLine) (status : Nat) (msg : String)
  | postExn (msg : String)
deriving Repr

/-- What iterating the generator returned by `Pipe.stream_response` produces:
the yielded fragments in order, the durations passed to `time.sleep`, and an
uncaught exception if one terminates the generator. -/
structure StreamResult where
  frags : List String
  sleeps : List Nat
  raised : Option PyExn
deriving Repr, DecidableEq

/-- Lines 179-258 of the source: the retry loop of `Pipe.stream_response`.
`in_reasoning_state` is initialised before the loop and persists across
attempts.  A `TypeError`/`KeyError` escaping the line loop escapes the
whole generator (it is not a `RequestException`), ending the attempt
sequence.  On a `RequestException` the handler checks
`response.status_code == 429 and attempt < retries - 1`; when `requests.post`
itself raised, `response` is the one bound by the latest earlier attempt, or
unbound (an uncaught `UnboundLocalError`) if no attempt ever bound one. -/
def streamGo (retries : Nat) : Nat → Bool → Option Nat → List AttemptOutcome → StreamResult
  | _, _, _, [] => ⟨[], [], none⟩
  | attempt, st, lastResp, o :: rest =>
    if attempt < retries then
      match o with
      | AttemptOutcome.ok lines =>
        ⟨okAttemptOut st lines, [], (iterLines st lines).raised⟩
      | AttemptOutcome.httpFail processed status msg =>
        let r := iterLines st processed
        match r.raised with
        | some e => ⟨r.out, [], some e⟩
        | none =>
          if status == 429 && attempt < retries - 1 then
            let k := streamGo retries (attempt + 1) r.state (some status) rest
            ⟨r.out ++ k.frags, 2 ^ attempt :: k.sleeps, k.raised⟩
          else ⟨r.out ++ [reqFailText msg], [], none⟩
      | AttemptOutcome.postExn msg =>
        match lastResp with
        | none => ⟨[], [], some (PyExn.unboundLocal "response")⟩
        | some status =>
          if status == 429 && attempt < retries - 1 then
            let k := streamGo retries (attempt + 1) st lastResp rest
            ⟨k.frags, 2 ^ attempt :: k.sleeps, k.raised⟩
          else ⟨[reqFailText msg], [], none⟩
    else ⟨[], [], none⟩

/-- `Pipe.stream_response` (lines 172-258): `_get_headers` raises a
`ValueError` on the first attempt when the API key is empty, and that
exception is not caught by the `except requests.RequestException` handler;
otherwise the retry loop runs with `in_reasoning_state = False`. -/
def stream_response (apiKey : String) (retries : Nat) (outcomes : List AttemptOutcome) : StreamResult :=
  if apiKey = "" then ⟨[], [], some (PyExn.valueError missingKeyMsg)⟩
  else streamGo retries 0 false none outcomes

/-- An HTTP response as consumed by `Pipe._handle_response`: its status code,
the result of `response.json()` (`none` models a body that is not valid
JSON), and `response.text` for error messages. -/
structure HttpResp where
  status : Nat
  body : Option JVal
  bodyText : String
deriving Repr

/-- Lines 82-91 of the source: the error message built for an HTTP error
status — `"HTTP Error {status}"`, extended inside a bare-`except` block:
when the body parses and `"error" in error_data` is `True` without raising,
the `message` sub-field of a dictionary `error` value if present, the
`error` value itself otherwise; when the body does not parse, or the
membership test or subscription raises (non-iterable body, or a string or
list body containing `error`), the bare `except` appends the first 500
characters of the raw body instead. -/
def httpErrorMessage (r : HttpResp) : String :=
  let base := "HTTP Error " ++ toString r.status
  match r.body with
  | none => base ++ ": " ++ pyTake r.bodyText 500
  | some d =>
    match pyContains d "error" with
    | Except.error _ => base ++ ": " ++ pyTake r.bodyText 500
    | Except.ok false => base
    | Except.ok true =>
      match pySubscript d "error" with
      | Except.error _ => base ++ ": " ++ pyTake r.bodyText 500
      | Except.ok e =>
        match e with
        | JVal.obj ekvs =>
          match findKey ekvs "message" with
          | some m => base ++ ": " ++ pyStr m
          | none => base ++ ": " ++ pyStr e
        | _ => base ++ ": " ++ pyStr e

/-- `Pipe._handle_response` (lines 76-94): `raise_for_status` turns any
status of 400 or above into an `HTTPError`, which the method converts into a
bare `Exception` carrying a descriptive message; an unparseable body on a
successful status becomes a bare `Exception` as well.  Note that the raised
exception is *not* a `requests.RequestException`. -/
def handle_response (r : HttpResp) : Except PyExn JVal :=
  if r.status ≥ 400 then Except.error (PyExn.plainExn (httpErrorMessage r))
  else
    match r.body with
    | some d => Except.ok d
    | none => Except.error (PyExn.plainExn ("Invalid JSON response: " ++ pyTake r.bodyText 500))

/-- Lines 274-291 of the source: extract the reasoning/content pair from a
parsed non-streaming body and apply the one-shot wrapping transform.  Shapes
on which the Python expression `data.get(...)`/indexing would raise are
mapped to `PyExn.typeError`. -/
def extractCompletion (data : JVal) : Except PyExn String :=
  match data with
  | JVal.obj kvs =>
    let choices := (findKey kvs "choices").getD JVal.null
    if !choices.truthy then Except.ok ""
    else
      match choices with
      | JVal.arr [] => Except.ok ""
      | JVal.arr (choice :: _) =>
        match choice with
        | JVal.obj ckvs =>
          match (findKey ckvs "message").getD (JVal.obj []) with
          | JVal.obj mkvs =>
            let content := (findKey mkvs "content").getD (JVal.str "")
            let reasoning := (findKey mkvs "reasoning").getD (JVal.str "")
            if reasoning.truthy && content.truthy then
              Except.ok ("<think>\n" ++ pyStr reasoning ++ "\n</think>\n\n" ++ pyStr content)
            else if reasoning.truthy then
              Except.ok ("<think>\n" ++ pyStr reasoning ++ "\n</think>\n\n")
            else if content.truthy then Except.ok (pyStr content)
            else Except.ok ""
          | _ => Except.error (PyExn.typeError "message value does not support get")
        | _ => Except.error (PyExn.typeError "choice does not support get")
      | _ => Except.error (PyExn.typeError "choices value is not a list")
  | _ => Except.error (PyExn.typeError "response body is not an object")

/-- Outcome of one non-streaming HTTP attempt, supplied by the environment:
either `requests.post` returned a response, or it raised a
`RequestException` (leaving `response` unbound for this attempt). -/
inductive GetOutcome
  | ok (resp : HttpResp)
  | postExn (msg : String)
deriving Repr

/-- Lines 264-299 of the source: the retry loop of `Pipe.get_completion`.
The result pairs what the call produces — `Except.error` for an exception
that escapes the method, `Except.ok none` for Python's implicit `None` when
the `for` loop is exhausted — with the recorded `time.sleep` durations.
Bare `Exception`s from `_handle_response` are not caught by the
`except requests.RequestException` handler and escape directly. -/
def getGo (retries : Nat) : Nat → Option Nat → List GetOutcome → Except PyExn (Option String) × List Nat
  | _, _, [] => (Except.ok none, [])
  | attempt, lastResp, o :: rest =>
    if attempt < retries then
      match o with
      | GetOutcome.ok resp =>
        match handle_response resp with
        | Except.error e => (Except.error e, [])
        | Except.ok data =>
          match extractCompletion data with
          | Except.ok s => (Except.ok (some s), [])
          | Except.error e => (Except.error e, [])
      | GetOutcome.postExn msg =>
        match lastResp with
        | none => (Except.error (PyExn.unboundLocal "response"), [])
        | some status =>
          if status == 429 && attempt < retries - 1 then
            let k := getGo retries (attempt + 1) lastResp rest
            (k.1, 2 ^ attempt :: k.2)
          else (Except.ok (some (reqFailText msg)), [])
    else (Except.ok none, [])

/-- `Pipe.get_completion` (lines 260-299): `_get_headers` raises a
`ValueError` on the first attempt when the API key is empty; otherwise the
retry loop runs. -/
def get_completion (apiKey : String) (retries : Nat) (outcomes : List GetOutcome) : Except PyExn (Option String) × List Nat :=
  if apiKey = "" then (Except.error (PyExn.valueError missingKeyMsg), [])
  else getGo retries 0 none outcomes

/-- Characters after the first `.` (Python `s.split(".", 1)[1]`). -/
def dropThroughDot : List Char → List Char
  | [] => []
  | c :: cs => if c = '.' then cs else dropThroughDot cs

/-- The value of `self.id` set in `Pipe.__init__`. -/
def pipeId : String := "openrouter"

/-- The characters of `f"{self.id}."`. -/
def idDotChars : List Char := pipeId.data ++ ['.']

/-- `Pipe._format_model_id` (lines 66-74) on the character list of the
incoming identifier: strip the literal `openrouter.` when it leads the
string, otherwise drop everything through the first `.` when one occurs,
otherwise return the identifier unchanged. -/
def formatCore (m : List Char) : List Char :=
  if leadsWith idDotChars m then m.drop idDotChars.length
  else if m.contains '.' then dropThroughDot m
  else m

/-- `Pipe._format_model_id` (lines 66-74). -/
def format_model_id (m : String) : String := String.mk (formatCore m.data)

/-- Modelled from the spec: "a model identifier with any routing-namespace
prefix (segment before the first separator) stripped before transmission" —
if the identifier contains the separator `.`, everything up to and including
the first separator is removed, and otherwise it is forwarded unchanged.
This is the spec-side comparator for the refinement claim about
`format_model_id`. -/
def stripNamespaceSpec (m : String) : String :=
  if m.data.contains '.' then String.mk (dropThroughDot m.data) else m

/-- The outbound request payload built by `Pipe.pipe` (lines 149-161):
`model` after `_format_model_id`, the `messages` value, the raw value bound
to `stream` (`False` when the key is absent), whether `include_reasoning`
was added, and the recognised sampling parameters copied from the body. -/
structure Payload where
  model : String
  messages : JVal
  stream : JVal
  includeReasoning : Bool
  params : List (String × JVal)
deriving Repr

/-- The sampling parameter names copied through by `Pipe.pipe` (line 159). -/
def paramNames : List String :=
  ["temperature", "top_p", "max_tokens", "presence_penalty", "frequency_penalty"]

/-- Line 159-161 of the source: copy each recognised parameter present in
the request body into the payload. -/
def passParams (body : List (String × JVal)) : List (String × JVal) :=
  paramNames.filterMap (fun p => (findKey body p).map (fun v => (p, v)))

/-- Lines 144-161 of the source: the payload `Pipe.pipe` constructs from a
request body whose `model` value is the string `m` and whose `messages`
value is `msgs`. -/
def buildPayload (includeReasoning : Bool) (m : String) (msgs : JVal) (body : List (String × JVal)) : Payload :=
  { model := format_model_id m
    messages := msgs
    stream := (findKey body "stream").getD (JVal.bool false)
    includeReasoning := includeReasoning
    params := passParams body }

/-- What `Pipe.pipe` returns: a plain string, the generator object produced
by `stream_response` (recording the payload it was given), or Python's
implicit `None` (only reachable through `get_completion` running out of
attempts). -/
inductive PipeRet
  | str (s : String)
  | gen (p : Payload)
  | noneRet (p : Payload)
deriving Repr

/-- Line 166 with lines 167-170 of the source: the non-streaming branch
returns `get_completion`'s value, with exceptions escaping it caught by
`pipe`'s `except Exception` handler and turned into `f"Error: {str(e)}"`
(none of the exceptions it can raise is a `KeyError`). -/
def completionToRet (p : Payload) : Except PyExn (Option String) → PipeRet
  | Except.ok (some s) => PipeRet.str s
  | Except.ok none => PipeRet.noneRet p
  | Except.error e => PipeRet.str ("Error: " ++ e.text)

/-- `Pipe.pipe` (lines 140-170) over a request body modelled as a decoded
dictionary.  A missing `model` or `messages` key raises `KeyError`, caught
and rendered as `f"Error: Missing required key in request: {e}"` (Python's
`str` of a `KeyError` is the quoted key); a non-string `model` value makes
`_format_model_id` raise an `AttributeError`, caught by the generic handler.
The streaming branch returns the generator object unevaluated. -/
def pipeModel (includeReasoning : Bool) (apiKey : String) (env : List GetOutcome)
    (body : List (String × JVal)) : PipeRet :=
  match findKey body "model" with
  | none => PipeRet.str ("Error: Missing required key in request: " ++ squote ++ "model" ++ squote)
  | some mv =>
    match mv with
    | JVal.str m =>
      match findKey body "messages" with
      | none => PipeRet.str ("Error: Missing required key in request: " ++ squote ++ "messages" ++ squote)
      | some msgs =>
        let payload := buildPayload includeReasoning m msgs body
        if payload.stream.truthy then PipeRet.gen payload
        else completionToRet payload (get_completion apiKey 3 env).1
    | _ =>
      PipeRet.str ("Error: " ++ (PyExn.typeError "model value has no startswith attribute").text)

/-- A streaming frame whose first choice carries a `delta.reasoning` string. -/
def reasonLine (s : String) : WireLine :=
  ⟨"data: r", some (JVal.obj [("choices",
    JVal.arr [JVal.obj [("delta", JVal.obj [("reasoning", JVal.str s)])]])])⟩

/-- A streaming frame whose first choice carries a `delta.content` string. -/
def contentLine (s : String) : WireLine :=
  ⟨"data: c", some (JVal.obj [("choices",
    JVal.arr [JVal.obj [("delta", JVal.obj [("content", JVal.str s)])]])])⟩

/-- The stream-end sentinel frame `data: [DONE]`. -/
def doneLine : WireLine := ⟨"data: [DONE]", none⟩

/-- A frame carrying the `data: ` marker whose payload is not valid JSON. -/
def junkLine : WireLine := ⟨"data: not json", none⟩

/-- Scan a fragment sequence tracking reasoning-block structure: an opening
marker is legal only outside a block, a closing marker only inside one, and
any other fragment is passed over.  The result is the block state after the
whole sequence, or `none` when the marker discipline is violated. -/
def markerScan : Bool → List String → Option Bool
  | st, [] => some st
  | st, s :: rest =>
    if s = openTag then (if st then none else markerScan true rest)
    else if s = closeTag then (if st then markerScan false rest else none)
    else markerScan st rest

/-- Whether an extracted fragment value, if emitted, cannot be mistaken for a
boundary marker (its rendered text differs from both markers). -/
def fragClean : Option JVal → Bool
  | none => true
  | some v => !(v.truthy && (pyStr v == openTag || pyStr v == closeTag))

/-- Whether a parsed chunk delivers no fragment that renders as a boundary
marker, following the same evaluation chain as the chunk handler (chunks
whose handling raises deliver no fragments and are vacuously clean). -/
def cleanChunk (chunk : JVal) : Bool :=
  match pyContains chunk "choices" with
  | Except.ok true =>
    match pySubscript chunk "choices" with
    | Except.ok choicesVal =>
      if !choicesVal.truthy then true
      else
        match pyIndex0 choicesVal with
        | Except.ok choice =>
          (match extractFieldE choice "reasoning" with
           | Except.ok rt => fragClean rt
           | Except.error _ => true) &&
          (match extractFieldE choice "content" with
           | Except.ok ct => fragClean ct
           | Except.error _ => true)
        | Except.error _ => true
    | Except.error _ => true
  | _ => true

/-- Whether a wire line delivers no fragment that renders as a boundary
marker. -/
def cleanLine (l : WireLine) : Bool :=
  match l.json with
  | none => true
  | some chunk => cleanChunk chunk

/-- Whether no line of the stream delivers a fragment that renders as a
boundary marker. -/
def cleanLines (ls : List WireLine) : Bool := ls.all cleanLine

/-- Whether Python's `outer in choice and field in choice[outer]` evaluates
to `False` without raising, in the field-missing shape the wire contract
allows: the choice is a dictionary whose `outer` key is absent or bound to
a dictionary lacking `field`. -/
def noFieldVia (choice : JVal) (outer field : String) : Bool :=
  match choice with
  | JVal.obj kvs =>
    match findKey kvs outer with
    | none => true
    | some (JVal.obj fkvs) => (findKey fkvs field).isNone
    | some _ => false
  | _ => false

/-- Whether a parsed chunk is one the loop provably no-ops on without
raising: a dictionary whose `choices` key is absent or bound to a falsy
value, or whose non-empty `choices` list starts with a dictionary choice
missing both expected fields through both `delta` and `message`.  Chunks of
other shapes are excluded: on several of them (a non-list `choices` value,
a non-dictionary first choice, a string `delta`/`message` containing the
field name) the real loop raises rather than skips. -/
def skippableChunk (chunk : JVal) : Bool :=
  match chunk with
  | JVal.obj kvs =>
    match findKey kvs "choices" with
    | none => true
    | some v =>
      if !v.truthy then true
      else
        match v with
        | JVal.arr (choice :: _) =>
          noFieldVia choice "delta" "reasoning" && noFieldVia choice "message" "reasoning" &&
          noFieldVia choice "delta" "content" && noFieldVia choice "message" "content"
        | _ => false
  | _ => false

/-- Whether a wire line is one the streaming loop skips without effect:
an empty line, a line without the `data: ` marker, or a non-terminal data
line whose payload fails to parse or parses to a skippable chunk. -/
def skippableLine (l : WireLine) : Bool :=
  l.text == "" || !(pyStartsWith l.text "data: ") ||
    (l.text != "data: [DONE]" &&
      match l.json with
      | none => true
      | some chunk => skippableChunk chunk)

/-- A streaming frame whose first choice is the number `5`: JSON-parseable,
with the expected fields missing, on which the loop's `"delta" in choice`
membership test raises an uncaught `TypeError`. -/
def badChoiceLine : WireLine :=
  ⟨"data: x", some (JVal.obj [("choices", JVal.arr [JVal.num 5])])⟩

/-- The two boundary markers are distinct strings. -/
theorem open_ne_close : openTag ≠ closeTag := by decide

/-- The two boundary markers are distinct strings (symmetric form). -/
theorem close_ne_open : closeTag ≠ openTag := by decide

/-- Scanning a concatenation threads the block state through the first part
and continues into the second, failing as soon as either part fails. -/
theorem markerScan_append (a b : List String) (st : Bool) :
    markerScan st (a ++ b) = (markerScan st a).bind (fun m => markerScan m b) := by
  induction a generalizing st with
  | nil => simp [markerScan]
  | cons x xs ih =>
    by_cases h1 : x = openTag
    · by_cases hst : st <;> simp [markerScan, h1, hst, ih]
    · by_cases h2 : x = closeTag
      · by_cases hst : st <;> simp [markerScan, h1, h2, hst, ih, close_ne_open]
      · simp [markerScan, h1, h2, ih]

/-- The yields for one chunk's extracted fragment pair respect the marker
discipline and leave the scanner in the resulting handler state, provided
the payload fragments do not themselves render as markers. -/
theorem markerScan_handleFrags (st : Bool) (rt ct : Option JVal)
    (h1 : fragClean rt = true) (h2 : fragClean ct = true) :
    markerScan st (handleFrags st rt ct).1 = some (handleFrags st rt ct).2 := by
  by_cases hrt : truthyOpt rt
  · cases rt with
    | none => simp [truthyOpt] at hrt
    | some v1 =>
      have htr : v1.truthy = true := by simpa [truthyOpt] using hrt
      have hne1 : pyStr v1 ≠ openTag ∧ pyStr v1 ≠ closeTag := by
        simp [fragClean, htr] at h1
        exact h1
      by_cases hct : truthyOpt ct
      · cases ct with
        | none => simp [truthyOpt] at hct
        | some v2 =>
          have htc : v2.truthy = true := by simpa [truthyOpt] using hct
          have hne2 : pyStr v2 ≠ openTag ∧ pyStr v2 ≠ closeTag := by
            simp [fragClean, htc] at h2
            exact h2
          by_cases hst : st <;>
            simp [handleFrags, hrt, hct, hst, markerScan, hne1.1, hne1.2, hne2.1, hne2.2,
              open_ne_close, close_ne_open]
      · by_cases hst : st <;>
          simp [handleFrags, hrt, hct, hst, markerScan, hne1.1, hne1.2,
            open_ne_close, close_ne_open]
  · by_cases hct : truthyOpt ct
    · cases ct with
      | none => simp [truthyOpt] at hct
      | some v2 =>
        have htc : v2.truthy = true := by simpa [truthyOpt] using hct
        have hne2 : pyStr v2 ≠ openTag ∧ pyStr v2 ≠ closeTag := by
          simp [fragClean, htc] at h2
          exact h2
        by_cases hst : st <;>
          simp [handleFrags, hrt, hct, hst, markerScan, hne2.1, hne2.2,
            open_ne_close, close_ne_open]
    · simp [handleFrags, hrt, hct, markerScan]

/-- When a chunk's handling succeeds, its fragments respect the marker
discipline and leave the scanner in the handler's resulting state, provided
the chunk is clean. -/
theorem markerScan_processChunk (st : Bool) (chunk : JVal) (p : List String × Bool)
    (hclean : cleanChunk chunk = true) (hok : processChunk st chunk = Except.ok p) :
    markerScan st p.1 = some p.2 := by
  unfold processChunk at hok
  unfold cleanChunk at hclean
  cases h1 : pyContains chunk "choices" with
  | error e => simp [h1] at hok
  | ok b =>
    simp only [h1] at hok hclean
    cases b with
    | false =>
      simp only [] at hok
      have hp : ([] , st) = p := by
        have hok2 : (Except.ok ([], st) : Except PyExn (List String × Bool)) = Except.ok p := hok
        injection hok2
      subst hp
      simp [markerScan]
    | true =>
      cases h2 : pySubscript chunk "choices" with
      | error e => simp [h2] at hok
      | ok choicesVal =>
        simp only [h2] at hok hclean
        by_cases h3 : choicesVal.truthy = true
        · simp only [h3, Bool.not_true] at hok hclean
          cases h4 : pyIndex0 choicesVal with
          | error e => simp [h4] at hok
          | ok choice =>
            simp only [h4] at hok hclean
            cases h5 : extractFieldE choice "reasoning" with
            | error e => simp [h5] at hok
            | ok rt =>
              simp only [h5] at hok hclean
              cases h6 : extractFieldE choice "content" with
              | error e => simp [h6] at hok
              | ok ct =>
                simp only [h6] at hok hclean
                obtain ⟨hc1, hc2⟩ := Bool.and_eq_true_iff.mp hclean
                have hp : handleFrags st rt ct = p := by
                  have hok2 : (Except.ok (handleFrags st rt ct) :
                      Except PyExn (List String × Bool)) = Except.ok p := hok
                  injection hok2
                subst hp
                exact markerScan_handleFrags st rt ct hc1 hc2
        · have hft : choicesVal.truthy = false := by
            revert h3; cases choicesVal.truthy <;> simp
          simp only [hft, Bool.not_false] at hok
          have hp : ([], st) = p := by
            have hok2 : (Except.ok ([], st) : Except PyExn (List String × Bool)) = Except.ok p := hok
            injection hok2
          subst hp
          simp [markerScan]

/-- The fragments produced by the streaming line loop respect the marker
discipline; the scanner's final state is the loop's final state, except
that the close yielded on `data: [DONE]` leaves the loop state stale
(`state` stays `true` while the scanner has already seen the close).  A
crashing chunk contributes nothing, so the scan ends in the state the
stream had when it died. -/
theorem markerScan_iterLines (ls : List WireLine) (st : Bool) (h : cleanLines ls = true) :
    markerScan st (iterLines st ls).out =
      some ((iterLines st ls).state && !(iterLines st ls).done) := by
  induction ls generalizing st with
  | nil => simp [iterLines, markerScan]
  | cons l rest ih =>
    have hsplit : cleanLine l = true ∧ cleanLines rest = true := by
      unfold cleanLines at h
      rw [List.all_cons] at h
      exact Bool.and_eq_true_iff.mp h
    obtain ⟨hl, hrest⟩ := hsplit
    by_cases ht : l.text = ""
    · simpa [iterLines, ht] using ih st hrest
    · by_cases hp : pyStartsWith l.text "data: "
      · by_cases hd : l.text = "data: [DONE]"
        · have hsw : pyStartsWith "data: [DONE]" "data: " = true := by decide
          by_cases hst : st <;>
            simp [iterLines, ht, hp, hd, hst, hsw, markerScan, close_ne_open]
        · cases hj : l.json with
          | none => simpa [iterLines, ht, hp, hd, hj] using ih st hrest
          | some chunk =>
            have hchunk : cleanChunk chunk = true := by
              unfold cleanLine at hl
              rw [hj] at hl
              exact hl
            cases hpc : processChunk st chunk with
            | error e =>
              have hstep : iterLines st (l :: rest) = ⟨[], st, false, some e⟩ := by
                simp [iterLines, ht, hp, hd, hj, hpc]
              rw [hstep]
              simp [markerScan]
            | ok p =>
              have hstep : iterLines st (l :: rest) =
                  ⟨p.1 ++ (iterLines p.2 rest).out, (iterLines p.2 rest).state,
                   (iterLines p.2 rest).done, (iterLines p.2 rest).raised⟩ := by
                simp [iterLines, ht, hp, hd, hj, hpc]
              rw [hstep]
              simp only
              rw [markerScan_append, markerScan_processChunk st chunk p hchunk hpc]
              simpa using ih p.2 hrest
      · simpa [iterLines, ht, hp] using ih st hrest

/-- A loop run that ends in an uncaught exception never reached the
`data: [DONE]` break. -/
theorem iterLines_raised_not_done (ls : List WireLine) (st : Bool) (e : PyExn)
    (h : (iterLines st ls).raised = some e) : (iterLines st ls).done = false := by
  induction ls generalizing st with
  | nil => simp [iterLines] at h
  | cons l rest ih =>
    by_cases ht : l.text = ""
    · rw [show iterLines st (l :: rest) = iterLines st rest by simp [iterLines, ht]] at h ⊢
      exact ih st h
    · by_cases hp : pyStartsWith l.text "data: "
      · by_cases hd : l.text = "data: [DONE]"
        · have hsw : pyStartsWith "data: [DONE]" "data: " = true := by decide
          have hnone : (iterLines st (l :: rest)).raised = none := by
            simp [iterLines, ht, hp, hd, hsw]
          rw [hnone] at h
          exact Option.noConfusion h
        · cases hj : l.json with
          | none =>
            rw [show iterLines st (l :: rest) = iterLines st rest by
              simp [iterLines, ht, hp, hd, hj]] at h ⊢
            exact ih st h
          | some chunk =>
            cases hpc : processChunk st chunk with
            | error e2 =>
              rw [show iterLines st (l :: rest) = ⟨[], st, false, some e2⟩ by
                simp [iterLines, ht, hp, hd, hj, hpc]]
            | ok p =>
              rw [show iterLines st (l :: rest) =
                  ⟨p.1 ++ (iterLines p.2 rest).out, (iterLines p.2 rest).state,
                   (iterLines p.2 rest).done, (iterLines p.2 rest).raised⟩ by
                simp [iterLines, ht, hp, hd, hj, hpc]] at h ⊢
              exact ih p.2 h
      · rw [show iterLines st (l :: rest) = iterLines st rest by simp [iterLines, ht, hp]] at h ⊢
        exact ih st h

/-- A trailing error fragment is never the opening marker. -/
theorem reqFail_ne_open (msg : String) : reqFailText msg ≠ openTag := by
  intro hcontra
  have h2 := congrArg String.length hcontra
  rw [reqFailText, String.length_append] at h2
  have e1 : ("Error: Request failed: " : String).length = 23 := by decide
  have e2 : (openTag : String).length = 8 := by decide
  rw [e1, e2] at h2
  omega

/-- A trailing error fragment is never the closing marker. -/
theorem reqFail_ne_close (msg : String) : reqFailText msg ≠ closeTag := by
  intro hcontra
  have h2 := congrArg String.length hcontra
  rw [reqFailText, String.length_append] at h2
  have e1 : ("Error: Request failed: " : String).length = 23 := by decide
  have e2 : (closeTag : String).length = 11 := by decide
  rw [e1, e2] at h2
  omega

/-- When a choice is a dictionary missing the field through `outer` in the
shape `noFieldVia` describes, the corresponding extraction arm evaluates to
`False` without raising. -/
theorem extractFieldVia_noField (choice : JVal) (outer field : String)
    (h : noFieldVia choice outer field = true) :
    extractFieldVia choice outer field = Except.ok none := by
  unfold noFieldVia at h
  cases choice with
  | obj kvs =>
    have h2 : (match findKey kvs outer with
        | none => true
        | some (JVal.obj fkvs) => (findKey fkvs field).isNone
        | some _ => false) = true := h
    cases hf : findKey kvs outer with
    | none => simp [extractFieldVia, pyContains, hf]
    | some v =>
      rw [hf] at h2
      cases v with
      | obj fkvs =>
        have h3 : (findKey fkvs field).isNone = true := h2
        have hnone : findKey fkvs field = none := Option.isNone_iff_eq_none.mp h3
        simp [extractFieldVia, pyContains, pySubscript, hf, hnone]
      | null => exact Bool.noConfusion (show false = true from h2)
      | bool b => exact Bool.noConfusion (show false = true from h2)
      | num n => exact Bool.noConfusion (show false = true from h2)
      | str s => exact Bool.noConfusion (show false = true from h2)
      | arr xs => exact Bool.noConfusion (show false = true from h2)
  | null => exact Bool.noConfusion (show false = true from h)
  | bool b => exact Bool.noConfusion (show false = true from h)
  | num n => exact Bool.noConfusion (show false = true from h)
  | str s => exact Bool.noConfusion (show false = true from h)
  | arr xs => exact Bool.noConfusion (show false = true from h)

/-- A dictionary choice missing the field through both `delta` and
`message` extracts nothing, without raising. -/
theorem extractFieldE_noField (choice : JVal) (field : String)
    (h1 : noFieldVia choice "delta" field = true)
    (h2 : noFieldVia choice "message" field = true) :
    extractFieldE choice field = Except.ok none := by
  unfold extractFieldE
  rw [extractFieldVia_noField choice "delta" field h1]
  exact extractFieldVia_noField choice "message" field h2

/-- A skippable chunk is a no-op for the chunk handler: no fragments, no
state change, no exception. -/
theorem processChunk_skippable (st : Bool) (chunk : JVal) (h : skippableChunk chunk = true) :
    processChunk st chunk = Except.ok ([], st) := by
  unfold skippableChunk at h
  split at h
  case h_2 => exact Bool.noConfusion h
  case h_1 kvs =>
    split at h
    case h_1 hf => simp [processChunk, pyContains, hf]
    case h_2 v hf =>
      split at h
      case isTrue htr =>
        have hft : v.truthy = false := by
          revert htr; cases v.truthy <;> simp
        simp [processChunk, pyContains, pySubscript, hf, hft]
      case isFalse htr =>
        have htt : v.truthy = true := by
          revert htr; cases v.truthy <;> simp
        split at h
        case h_2 => exact Bool.noConfusion h
        case h_1 choice tl =>
          obtain ⟨hd3, hf2⟩ := Bool.and_eq_true_iff.mp h
          obtain ⟨hd2, he⟩ := Bool.and_eq_true_iff.mp hd3
          obtain ⟨ha, hc⟩ := Bool.and_eq_true_iff.mp hd2
          simp [processChunk, pyContains, pySubscript, pyIndex0, hf, htt,
            extractFieldE_noField choice "reasoning" ha hc,
            extractFieldE_noField choice "content" he hf2,
            handleFrags, truthyOpt]

/-- A skippable line at the head of the stream contributes nothing: neither
output nor a state change nor an exception. -/
theorem iterLines_skip (st : Bool) (l : WireLine) (post : List WireLine)
    (h : skippableLine l = true) :
    iterLines st (l :: post) = iterLines st post := by
  unfold skippableLine at h
  by_cases ht : l.text = ""
  · simp [iterLines, ht]
  · by_cases hp : pyStartsWith l.text "data: "
    · have h3 : (l.text != "data: [DONE]" &&
          match l.json with
          | none => true
          | some chunk => skippableChunk chunk) = true := by
        simpa [ht, hp] using h
      obtain ⟨hd, hrest⟩ := Bool.and_eq_true_iff.mp h3
      have hdne : l.text ≠ "data: [DONE]" := by simpa using hd
      cases hj : l.json with
      | none => simp [iterLines, ht, hp, hdne, hj]
      | some chunk =>
        rw [hj] at hrest
        have hsk : skippableChunk chunk = true := hrest
        simp [iterLines, ht, hp, hdne, hj, processChunk_skippable st chunk hsk]
    · simp [iterLines, ht, hp]

/-- Characterisation of `leadsWith` as an initial-segment property. -/
theorem leadsWith_iff (p : List Char) : ∀ l, leadsWith p l = true ↔ ∃ t, l = p ++ t := by
  induction p with
  | nil => intro l; simp [leadsWith]
  | cons a as ih =>
    intro l
    cases l with
    | nil => simp [leadsWith]
    | cons b bs =>
      simp only [leadsWith, Bool.and_eq_true, beq_iff_eq, ih, List.cons_append]
      constructor
      · rintro ⟨rfl, t, rfl⟩
        exact ⟨t, rfl⟩
      · rintro ⟨t, heq⟩
        injection heq with h1 h2
        exact ⟨h1.symm, t, h2⟩

/-- Dropping through the first dot of `p ++ '.' :: t` yields `t` when `p`
itself is dot-free. -/
theorem dropThroughDot_append (p t : List Char) (h : ∀ c ∈ p, c ≠ '.') :
    dropThroughDot (p ++ '.' :: t) = t := by
  induction p with
  | nil => simp [dropThroughDot]
  | cons a as ih =>
    have ha : a ≠ '.' := h a (List.mem_cons_self a as)
    simp only [List.cons_append, dropThroughDot, if_neg ha]
    exact ih (fun c hc => h c (List.mem_cons_of_mem a hc))

/-- A character list with an explicit dot contains a dot. -/
theorem contains_append_dot (p t : List Char) : (p ++ '.' :: t).contains '.' = true := by
  simp

/-- The identifier-stripping branch structure of `_format_model_id` collapses
to a single after-the-first-dot rule: the literal `openrouter.` arm drops
exactly the characters through the first dot, since `openrouter` is
dot-free. -/
theorem formatCore_strips (m : List Char) :
    formatCore m = (if m.contains '.' then dropThroughDot m else m) := by
  by_cases h : leadsWith idDotChars m = true
  · obtain ⟨t, rfl⟩ := (leadsWith_iff idDotChars m).mp h
    have hnodot : ∀ c ∈ pipeId.data, c ≠ '.' := by decide
    have hsplit : idDotChars ++ t = pipeId.data ++ '.' :: t := by
      simp [idDotChars]
    have hdrop : (idDotChars ++ t).drop idDotChars.length = t := List.drop_left idDotChars t
    have hdtd : dropThroughDot (idDotChars ++ t) = t := by
      rw [hsplit]; exact dropThroughDot_append pipeId.data t hnodot
    have hmem : ('.' : Char) ∈ idDotChars := by decide
    simp [formatCore, h, hdrop, hdtd, hmem]
  · simp [formatCore, h]

/-- C1: for every decoded upstream event fed to the streaming interleaver in
any state, the handling is exactly: a non-empty reasoning fragment first
emits the opening marker when not already inside a reasoning block (setting
the in-block flag) and then the fragment verbatim; a non-empty content
fragment first emits the closing marker when currently inside a reasoning
block (clearing the flag) and then the fragment verbatim; empty fragments
contribute nothing. -/
theorem C1_stream_event_interleaving (st : Bool) (r c : String) :
    processChunk st (JVal.obj [("choices", JVal.arr [JVal.obj [("delta",
        JVal.obj [("reasoning", JVal.str r), ("content", JVal.str c)])]])]) =
      Except.ok
      (let opening : List String := if r = "" then [] else (if st then [] else [openTag]) ++ [r]
       let afterR : Bool := if r = "" then st else true
       let closing : List String := if c = "" then [] else (if afterR then [closeTag] else []) ++ [c]
       (opening ++ closing, if c = "" then afterR else false)) := by
  by_cases hr : r = "" <;> by_cases hc : c = "" <;>
    simp [processChunk, pyContains, pySubscript, pyIndex0, extractFieldE, extractFieldVia,
      handleFrags, findKey, truthyOpt, JVal.truthy, pyStr, hr, hc]

/-- C2: evaluating the streaming loop on a stream that delivers one
reasoning fragment and then the `[DONE]` sentinel shows the closing marker
emitted TWICE — once by the `[DONE]` branch (which does not clear
`in_reasoning_state`) and once by the end-of-stream flush — contradicting
the claim that exactly one closing marker is emitted and never duplicated. -/
theorem C2_done_double_close :
    (okAttemptOut false [reasonLine "R", doneLine]).count closeTag = 2 := by
  decide

/-- C3 (counterexample): on the event sequence reasoning `A`, content `B`,
reasoning `C`, `[DONE]`, the emitted output opens a reasoning block twice,
refuting the claim that any single request's output contains at most one
reasoning block that is opened exactly once. -/
theorem C3_counterexample_two_blocks :
    (okAttemptOut false
      [reasonLine "A", contentLine "B", reasonLine "C", doneLine]).count openTag = 2 := by
  decide

/-- C3 (amended): for a single streaming attempt none of whose payload
fragments renders as a boundary marker, the emitted opening and closing
markers alternate starting outside a block and every opened block is closed
(one open/close pair per maximal reasoning run, so several blocks can
occur) — except that a stream terminated by `[DONE]` while a reasoning
block is open emits the closing marker twice, making the marker scan fail;
a chunk whose handling raises kills the generator with the block left in
whatever state the stream had (no flush, scan ends in that state); and when
an attempt fails with a request exception, the trailing error fragment is
appended without closing an open block. -/
theorem C3_amended_marker_discipline (ls : List WireLine) (msg : String)
    (h : cleanLines ls = true) :
    markerScan false (okAttemptOut false ls) =
      (if (iterLines false ls).raised.isNone then
        (if (iterLines false ls).state && (iterLines false ls).done then none else some false)
       else some (iterLines false ls).state) ∧
    ((iterLines false ls).done = false → (iterLines false ls).raised = none →
      markerScan false ((iterLines false ls).out ++ [reqFailText msg]) =
        some (iterLines false ls).state) := by
  have hscan := markerScan_iterLines ls false h
  constructor
  · unfold okAttemptOut
    rw [markerScan_append, hscan]
    cases hrais : (iterLines false ls).raised with
    | some e =>
      have hdone := iterLines_raised_not_done ls false e hrais
      simp [hrais, hdone, markerScan]
    | none =>
      cases hstate : (iterLines false ls).state <;>
        cases hdone : (iterLines false ls).done <;>
          simp [hrais, hstate, hdone, markerScan, close_ne_open]
  · intro hdone hrais
    rw [markerScan_append, hscan, hdone]
    cases hstate : (iterLines false ls).state <;>
      simp [hstate, markerScan, reqFail_ne_open msg, reqFail_ne_close msg]

/-- Witness for C3's amended theorem at the concrete counterexample stream:
the marker scan fails on the duplicated close after `[DONE]`. -/
theorem C3_amended_witness :
    markerScan false (okAttemptOut false
      [reasonLine "A", contentLine "B", reasonLine "C", doneLine]) = none := by
  have h := (C3_amended_marker_discipline
    [reasonLine "A", contentLine "B", reasonLine "C", doneLine] "x" (by decide)).1
  rw [h]
  decide

/-- C4: the one-shot transform of `get_completion` maps the extracted
(reasoning, content) pair to the reasoning wrapped in the opening and
closing markers followed by the content when reasoning is non-empty (the
block being closed even when the content is empty), to the bare content when
only content is non-empty, and to the empty string when both are empty. -/
theorem C4_one_shot_transform (r c : String) :
    extractCompletion (JVal.obj [("choices", JVal.arr [JVal.obj [("message",
        JVal.obj [("content", JVal.str c), ("reasoning", JVal.str r)])]])]) =
      Except.ok (if r = "" then c else "<think>\n" ++ r ++ "\n</think>\n\n" ++ c) := by
  by_cases hr : r = "" <;> by_cases hc : c = "" <;>
    simp [extractCompletion, findKey, JVal.truthy, pyStr, hr, hc]

/-- C5: evaluating `get_completion` on a first attempt that returns HTTP 429
shows the call failing immediately with the bare `Exception` raised by
`_handle_response` — no `time.sleep`, and the remaining attempt outcomes are
never consulted — contradicting the claim that a rate-limited non-streaming
request is retried up to 3 attempts with exponential backoff. -/
theorem C5_get_completion_429_no_retry (rest : List GetOutcome) :
    get_completion "k" 3 (GetOutcome.ok ⟨429, some (JVal.obj []), "Too Many Requests"⟩ :: rest) =
      (Except.error (PyExn.plainExn "HTTP Error 429"), []) := by
  rfl

/-- C6: evaluating the streaming path on a request whose `requests.post`
raises before any response is bound shows the generator terminating with a
raw uncaught `UnboundLocalError` (the `except` handler reads
`response.status_code` with `response` unbound), contradicting the claim
that every network failure is converted into a failure string and that the
caller never receives a raw exception. -/
theorem C6_stream_raw_exception (rest : List AttemptOutcome) :
    stream_response "k" 3 (AttemptOutcome.postExn "Connection refused" :: rest) =
      ⟨[], [], some (PyExn.unboundLocal "response")⟩ := by
  rfl

/-- C7 (counterexample): a JSON-parseable frame whose first choice is the
number `5` — a shape mismatch with both expected fields missing — is not
silently skipped: the loop raises an uncaught `TypeError` at the
`"delta" in choice` membership test, the generator dies, and the remaining
stream (the content fragment `B`) is never processed. -/
theorem C7_counterexample_crash :
    (iterLines false [reasonLine "R", badChoiceLine, contentLine "B"]).raised =
      some (PyExn.typeError "argument of membership test is not iterable") ∧
    (iterLines false [reasonLine "R", badChoiceLine, contentLine "B"]).out =
      [openTag, "R"] := by
  decide

/-- C7 (amended): a frame that is empty, lacks the `data: ` marker, fails
JSON parsing, or parses to a dictionary whose `choices` is absent or falsy,
or whose non-empty `choices` list starts with a dictionary choice missing
both expected fields, is silently skipped: inserting it anywhere in a
stream leaves the whole loop result (output, state, termination and raised
exception) unchanged, in any starting state.  Frames that mismatch at a
membership test or subscription (non-list `choices`, non-dictionary first
choice, string `delta` containing the field name) instead crash the
generator, per the counterexample. -/
theorem C7_malformed_frame_skipped (st : Bool) (pre post : List WireLine) (l : WireLine)
    (h : skippableLine l = true) :
    iterLines st (pre ++ l :: post) = iterLines st (pre ++ post) := by
  induction pre generalizing st with
  | nil => simpa using iterLines_skip st l post h
  | cons x xs ih =>
    by_cases ht : x.text = ""
    · simp [iterLines, ht, ih]
    · by_cases hp : pyStartsWith x.text "data: "
      · by_cases hd : x.text = "data: [DONE]"
        · simp [iterLines, ht, hp, hd, ih]
        · cases hj : x.json with
          | none => simp [iterLines, ht, hp, hd, hj, ih]
          | some chunk =>
            cases hpc : processChunk st chunk with
            | error e => simp [iterLines, ht, hp, hd, hj, hpc]
            | ok p => simp [iterLines, ht, hp, hd, hj, hpc, ih]
      · simp [iterLines, ht, hp, ih]

/-- Witness for C7: a junk frame inserted between a reasoning frame and a
content frame leaves the loop result unchanged. -/
theorem C7_witness :
    iterLines false [reasonLine "A", junkLine, contentLine "B"] =
      iterLines false [reasonLine "A", contentLine "B"] :=
  C7_malformed_frame_skipped false [reasonLine "A"] [contentLine "B"] junkLine (by decide)

/-- C8: a non-streaming result whose parsed body is an object with a
missing, null, or empty `choices` array makes `get_completion` return the
empty string (no error), for any non-empty API key and successful status. -/
theorem C8_no_choices_empty_string (key t : String) (status : Nat)
    (kvs : List (String × JVal)) (rest : List GetOutcome)
    (hkey : key ≠ "") (hstatus : status < 400)
    (hchoices : ((findKey kvs "choices").getD JVal.null).truthy = false) :
    get_completion key 3 (GetOutcome.ok ⟨status, some (JVal.obj kvs), t⟩ :: rest) =
      (Except.ok (some ""), []) := by
  have hnot : ¬ status ≥ 400 := Nat.not_le_of_lt hstatus
  simp [get_completion, hkey, getGo, handle_response, hnot, extractCompletion, hchoices]

/-- Witness for C8 at a concrete empty-object body. -/
theorem C8_witness :
    get_completion "k" 3 [GetOutcome.ok ⟨200, some (JVal.obj []), ""⟩] =
      (Except.ok (some ""), []) :=
  C8_no_choices_empty_string "k" "" 200 [] [] (by decide) (by decide) (by decide)

/-- C9: the model identifier placed in the outbound payload equals the
spec-modelled stripping rule — everything up to and including the first `.`
separator removed when one occurs, the identifier unchanged otherwise — for
every incoming identifier. -/
theorem C9_payload_model_stripped (ir : Bool) (m : String) (msgs : JVal)
    (body : List (String × JVal)) :
    (buildPayload ir m msgs body).model = stripNamespaceSpec m := by
  show format_model_id m = stripNamespaceSpec m
  rw [format_model_id, stripNamespaceSpec, formatCore_strips]
  by_cases h : m.data.contains '.' = true
  · rw [if_pos h, if_pos h]
  · rw [if_neg h, if_neg h]

/-- C10: a request body containing `model` and `messages` but no `stream`
key is processed as non-streaming — the constructed payload carries
`stream = False`, the returned value is exactly what the `get_completion`
path produces (a string, or Python's implicit `None` on loop exhaustion),
and it is never the streaming generator. -/
theorem C10_default_nonstreaming (ir : Bool) (key : String) (env : List GetOutcome)
    (body : List (String × JVal)) (m : String) (msgs : JVal)
    (hm : findKey body "model" = some (JVal.str m))
    (hmsg : findKey body "messages" = some msgs)
    (hs : findKey body "stream" = none) :
    (buildPayload ir m msgs body).stream = JVal.bool false ∧
    pipeModel ir key env body =
      completionToRet (buildPayload ir m msgs body) (get_completion key 3 env).1 ∧
    ∀ p, pipeModel ir key env body ≠ PipeRet.gen p := by
  have hstream : (buildPayload ir m msgs body).stream = JVal.bool false := by
    simp [buildPayload, hs]
  have hmain : pipeModel ir key env body =
      completionToRet (buildPayload ir m msgs body) (get_completion key 3 env).1 := by
    simp [pipeModel, hm, hmsg, hstream, JVal.truthy]
  refine ⟨hstream, hmain, ?_⟩
  intro p hcontra
  rw [hmain] at hcontra
  cases hres : (get_completion key 3 env).1 with
  | error e => rw [hres] at hcontra; simp [completionToRet] at hcontra
  | ok v =>
    cases v with
    | none => rw [hres] at hcontra; simp [completionToRet] at hcontra
    | some s => rw [hres] at hcontra; simp [completionToRet] at hcontra

/-- Witness for C10 at a concrete body with `model` and `messages` only. -/
theorem C10_witness :
    pipeModel true "k" [] [("model", JVal.str "openrouter.m"), ("messages", JVal.arr [])] =
      completionToRet
        (buildPayload true "openrouter.m" (JVal.arr [])
          [("model", JVal.str "openrouter.m"), ("messages", JVal.arr [])])
        (get_completion "k" 3 []).1 :=
  (C10_default_nonstreaming true "k" []
    [("model", JVal.str "openrouter.m"), ("messages", JVal.arr [])]
    "openrouter.m" (JVal.arr []) rfl rfl rfl).2.1
